import Mathlib

/-!
Verification of the Kalshi weather data worker (Cloudflare Worker,
`src/worker/src/index.js`, authenticated version).

The worker aggregates, per city and target date, NWS weather forecasts,
Kalshi market/order-book data and an open-meteo ensemble forecast into a
single JSON bundle.  The upstream network is modelled by explicit response
oracles: an endpoint's behaviour is a function from the attempt number to
an HTTP response (status code plus already-parsed body).  All definitions
below are shallow embeddings of the JavaScript source.
-/

deriving instance DecidableEq for Except

namespace Worker

/-- An HTTP response as seen by the worker: numeric status plus the parsed
JSON body (the body type varies per endpoint). -/
structure Resp (β : Type) where
  status : Nat
  body : β
deriving DecidableEq

/-- Outcome of a (possibly retried) fetch: the JSON body or the thrown
error (status code and URL, mirroring the message of
`new Error(\x7bHTTP ${status} from ${url}\x7d)`), together with the number of
attempts performed and the accumulated backoff delay in milliseconds. -/
structure FetchTrace (β : Type) where
  result : Except (Nat × String) β
  attempts : Nat
  totalDelayMs : Nat
deriving DecidableEq

/-- `resp.ok` in the fetch API: status in the range 200..299. -/
def respOk (s : Nat) : Bool := decide (200 ≤ s ∧ s < 300)

/-- The retry loop body of `safeFetch` (and `kalshiFetch`):
`for (let attempt = 0; attempt < 3; attempt++)`.  `remaining` is structural
fuel; the loop is entered with `remaining = 3` and the guard
`attempt < 2` on the 429 branch guarantees the fuel is never exhausted
(the `remaining = 0` base case is unreachable from `remaining = 3`). -/
def safeFetchGo (resp : Nat → Resp β) (url : String) :
    (remaining : Nat) → (attempt : Nat) → (delayAcc : Nat) → FetchTrace β
  | 0, attempt, delayAcc => ⟨Except.error ((resp attempt).status, url), attempt, delayAcc⟩
  | remaining + 1, attempt, delayAcc =>
    let r := resp attempt
    if respOk r.status then ⟨Except.ok r.body, attempt + 1, delayAcc⟩
    else if r.status = 429 ∧ attempt < 2 then
      safeFetchGo resp url remaining (attempt + 1) (delayAcc + 1500 * (attempt + 1))
    else ⟨Except.error (r.status, url), attempt + 1, delayAcc⟩

/-- `safeFetch(url, headers)`: up to 3 attempts; a 429 before the last
attempt sleeps `1500 * (attempt + 1)` ms and retries; any other non-ok
status (or a 429 on the last attempt) throws `HTTP {status} from {url}`. -/
def safeFetch (resp : Nat → Resp β) (url : String) : FetchTrace β :=
  safeFetchGo resp url 3 0 0

/-- Base URL of the Kalshi trade API. -/
def kalshiBase : String := "https://api.elections.kalshi.com/trade-api/v2"

/-- `kalshiFetch(env, path)`: identical retry loop to `safeFetch` on the URL
`KALSHI_BASE + path`.  The authenticated variant regenerates the signed
headers (fresh timestamp and RSA-PSS signature) on every attempt; signing
does not alter the control flow or the response oracle, so the headers are
not modelled. -/
def kalshiFetch (resp : Nat → Resp β) (path : String) : FetchTrace β :=
  safeFetchGo resp (kalshiBase ++ path) 3 0 0

/-! ## String helpers modelling the JavaScript primitives used by the worker

These operate on `List Char` / `String.mk` so that every definition is
structurally recursive and evaluates inside the kernel. -/

/-- `pre` is a prefix of `s` — models `String.prototype.startsWith`. -/
def strStartsWith (s pre : String) : Bool := pre.data.isPrefixOf s.data

/-- `sub` occurs as a contiguous substring — models `String.prototype.includes`. -/
def containsSub (sub : List Char) : List Char → Bool
  | [] => sub.isEmpty
  | c :: rest => sub.isPrefixOf (c :: rest) || containsSub sub rest

/-- `s.includes(sub)` on strings. -/
def strIncludes (s sub : String) : Bool := containsSub sub.data s.data

/-- Splitting a character list at every occurrence of `sep` — models
`String.prototype.split` with a single-character separator (`cur` is the
reversed chunk currently being accumulated). -/
def splitOnCharGo (sep : Char) : (cur : List Char) → List Char → List (List Char)
  | cur, [] => [cur.reverse]
  | cur, c :: rest =>
    if c = sep then cur.reverse :: splitOnCharGo sep [] rest
    else splitOnCharGo sep (c :: cur) rest

/-- `s.split(sep)` for a one-character separator. -/
def strSplitOn (s : String) (sep : Char) : List String :=
  (splitOnCharGo sep [] s.data).map String.mk

/-- `String.prototype.trim` (ASCII whitespace suffices for the worker's inputs). -/
def jsTrim (s : String) : String :=
  String.mk (((s.data.dropWhile Char.isWhitespace).reverse.dropWhile Char.isWhitespace).reverse)

/-- `String.prototype.toUpperCase` on the ASCII inputs the worker handles. -/
def jsToUpper (s : String) : String := String.mk (s.data.map Char.toUpper)

/-- The digit string of a character list, as a number — models how the JS
date parser reads the numeric fields of an ISO date string. -/
def digitsToNat? (l : List Char) : Option Nat :=
  if l ≠ [] ∧ l.all Char.isDigit then
    some (l.foldl (fun n c => n * 10 + (c.toNat - 48)) 0)
  else none

/-! ## Ticker-date encoding (`toTickerDate`)

The source computes `new Date(dateStr + "T12:00:00Z")` and reads the UTC
year / month / day back.  For a string of the shape `YYYY-MM-DD` denoting a
real calendar date, the midday-UTC anchor makes those components exactly
the written ones; for a string whose components are out of range the JS
`Date` is invalid and every component is `NaN`, so the source produces the
literal `"aN" + "undefined" + "NaN"` (from `String(NaN).slice(-2)`,
`months[NaN]` and `String(NaN).padStart(2, "0")`). -/

/-- Decompose `"YYYY-MM-DD"` into its numeric components (the shape the JS
ISO date parser accepts for the worker's inputs). -/
def parseYMD (s : String) : Option (Nat × Nat × Nat) :=
  match splitOnCharGo '-' [] s.data with
  | [ys, ms, ds] =>
    if ys.length = 4 ∧ ms.length = 2 ∧ ds.length = 2 then
      match digitsToNat? ys, digitsToNat? ms, digitsToNat? ds with
      | some y, some m, some d => some (y, m, d)
      | _, _, _ => none
    else none
  | _ => none

/-- Gregorian leap year, as validated by the JS ISO date parser. -/
def isLeapYear (y : Nat) : Bool := decide (y % 4 = 0 ∧ (y % 100 ≠ 0 ∨ y % 400 = 0))

/-- Number of days in a month. -/
def daysInMonth (y m : Nat) : Nat :=
  if m = 2 then (if isLeapYear y then 29 else 28)
  else if m = 4 ∨ m = 6 ∨ m = 9 ∨ m = 11 then 30
  else 31

/-- Whether `new Date("YYYY-MM-DDT12:00:00Z")` yields a valid date. -/
def jsDateValid (y m d : Nat) : Bool :=
  decide (1 ≤ m ∧ m ≤ 12 ∧ 1 ≤ d ∧ d ≤ daysInMonth y m)

/-- The month abbreviation table of `toTickerDate`. -/
def months : List String :=
  ["JAN", "FEB", "MAR", "APR", "MAY", "JUN", "JUL", "AUG", "SEP", "OCT", "NOV", "DEC"]

/-- `String(n).slice(-2)`: the last two characters (the whole string when
shorter). -/
def lastTwoStr (s : String) : String := String.mk (s.data.drop (s.data.length - 2))

/-- `String(d).padStart(2, "0")` for the day component. -/
def padTwo (d : Nat) : String :=
  if d < 10 then "0" ++ Nat.repr d else Nat.repr d

/-- What the source produces for an invalid JS date:
`String(NaN).slice(-2) + months[NaN] + String(NaN).padStart(2, "0")`. -/
def invalidDateTicker : String := "aNundefinedNaN"

/-- `toTickerDate(dateStr)`: Kalshi ticker code `YYMMMDD` of the date
anchored at midday UTC. -/
def toTickerDate (dateStr : String) : String :=
  match parseYMD dateStr with
  | some (y, m, d) =>
    if jsDateValid y m d then
      lastTwoStr (Nat.repr y) ++ months.getD (m - 1) "undefined" ++ padTwo d
    else invalidDateTicker
  | none => invalidDateTicker

/-- Whether a string has the `YYMMMDD` shape that `toTickerDate` produces
for real calendar dates: two digits, a three-letter month abbreviation from
the table, two digits. -/
def isTickerDateForm (s : String) : Bool :=
  match s.data with
  | [y1, y2, m1, m2, m3, d1, d2] =>
    y1.isDigit && y2.isDigit && d1.isDigit && d2.isDigit &&
      months.contains (String.mk [m1, m2, m3])
  | _ => false

/-! ## Weather fetcher (`fetchWeather`) -/

/-- Static per-city configuration (`CITY_CONFIGS` entry).  Latitude and
longitude are kept as the decimal strings interpolated into the NWS URL. -/
structure CityConfig where
  name : String
  station : String
  lat : String
  lon : String
  high : String
  low : String
  tz : String
deriving DecidableEq

/-- One NWS hourly forecast period (the fields the worker reads). -/
structure Period where
  startTime : String
  temperature : Int
  windSpeed : String
  shortForecast : String
deriving DecidableEq

/-- One record of the bundle's `hourly` array. -/
structure HourlyRecord where
  time : String
  temp_f : Int
  wind : String
  desc : String
deriving DecidableEq

/-- The weather part of a city bundle, as returned by `fetchWeather`. -/
structure WeatherBundle where
  predicted_high_f : Option Int
  predicted_low_f : Option Int
  high_hour : Option String
  low_hour : Option String
  current_temp_f : Option Rat
  current_desc : Option String
  observed_at : Option String
  hourly : List HourlyRecord
  error : Option String
deriving DecidableEq

/-- Body of the NWS points endpoint: `properties.forecastHourly`. -/
structure PointsBody where
  forecastHourly : String
deriving DecidableEq

/-- Body of the NWS hourly forecast endpoint: `properties.periods`
(`none` models an absent field, handled by `|| []`). -/
structure ForecastBody where
  periods : Option (List Period)
deriving DecidableEq

/-- `properties` of the NWS latest-observation endpoint.  The outer
`Option` of `temperature` models an absent `temperature` object, the inner
one a `null` `value`. -/
structure ObsProps where
  temperature : Option (Option Rat)
  textDescription : Option String
  timestamp : Option String
deriving DecidableEq

/-- The NWS upstream as response oracles, one per endpoint, indexed by the
attempt number of the retry loop. -/
structure NwsWorld where
  points : Nat → Resp PointsBody
  hourly : Nat → Resp ForecastBody
  obs : Nat → Resp ObsProps

/-- `Math.max(...temps)` guarded by `temps.length > 0`. -/
def listMax : List Int → Option Int
  | [] => none
  | t :: ts => some (ts.foldl max t)

/-- `Math.min(...temps)` guarded by `temps.length > 0`. -/
def listMin : List Int → Option Int
  | [] => none
  | t :: ts => some (ts.foldl min t)

/-- One iteration of the extreme-hour loop:
`if (p.temperature === highF && !highHour) highHour = p.startTime` (and the
same for the low).  JavaScript's `!highHour` is true both for `null` and
for the empty string, hence the `getD "" = ""` test. -/
def hourStep (highF lowF : Option Int) (acc : Option String × Option String)
    (p : Period) : Option String × Option String :=
  (if some p.temperature = highF ∧ acc.1.getD "" = "" then some p.startTime else acc.1,
   if some p.temperature = lowF ∧ acc.2.getD "" = "" then some p.startTime else acc.2)

/-- Derived forecast data computed by `fetchWeather` from the hourly
periods: filtered periods, extremes, extreme hours and the hourly array. -/
structure PeriodSummary where
  highF : Option Int
  lowF : Option Int
  highHour : Option String
  lowHour : Option String
  hourly : List HourlyRecord
deriving DecidableEq

/-- The pure core of `fetchWeather` (source lines filtering
`targetPeriods`, computing `highF`/`lowF`, the extreme-hour loop and the
`hourly` mapping). -/
def summarizePeriods (periods : List Period) (targetDate : String) : PeriodSummary :=
  let targetPeriods := periods.filter (fun p => strStartsWith p.startTime targetDate)
  let temps := targetPeriods.map Period.temperature
  let highF := listMax temps
  let lowF := listMin temps
  let hrs := targetPeriods.foldl (hourStep highF lowF) (none, none)
  { highF := highF, lowF := lowF, highHour := hrs.1, lowHour := hrs.2,
    hourly := targetPeriods.map (fun p =>
      { time := p.startTime, temp_f := p.temperature,
        wind := p.windSpeed, desc := p.shortForecast }) }

/-- `cToF(c) = c * 9 / 5 + 32`. -/
def cToF (c : Rat) : Rat := c * 9 / 5 + 32

/-- `Math.round(x * 10) / 10`: round to one decimal, halves toward +∞. -/
def roundTo1 (x : Rat) : Rat := ((Rat.floor (x * 10 + 1 / 2) : Int) : Rat) / 10

/-- `x || null` on an optional string: the empty string is falsy. -/
def jsOrNullStr (o : Option String) : Option String :=
  match o with
  | some s => if s = "" then none else some s
  | none => none

/-- The message of the error thrown by `safeFetch` / `kalshiFetch`. -/
def errMsg (st : Nat) (url : String) : String :=
  "HTTP " ++ Nat.repr st ++ " from " ++ url

/-- The catch-all result of `fetchWeather`: every field null, empty
`hourly`, the caught message in `error`. -/
def errorWeatherBundle (msg : String) : WeatherBundle :=
  { predicted_high_f := none, predicted_low_f := none,
    high_hour := none, low_hour := none,
    current_temp_f := none, current_desc := none,
    observed_at := none, hourly := [], error := some msg }

/-- URL of the NWS points endpoint for a city. -/
def pointsUrl (cfg : CityConfig) : String :=
  "https://api.weather.gov/points/" ++ cfg.lat ++ "," ++ cfg.lon

/-- URL of the NWS latest-observation endpoint for a city. -/
def obsUrl (cfg : CityConfig) : String :=
  "https://api.weather.gov/stations/" ++ cfg.station ++ "/observations/latest"

/-- `fetchWeather(config, targetDate)`: points lookup, hourly forecast,
period summary, then the optional latest observation whose failure is
swallowed by the inner `try`/`catch`. -/
def fetchWeather (w : NwsWorld) (cfg : CityConfig) (targetDate : String) : WeatherBundle :=
  match (safeFetch w.points (pointsUrl cfg)).result with
  | Except.error (st, u) => errorWeatherBundle (errMsg st u)
  | Except.ok pd =>
    match (safeFetch w.hourly pd.forecastHourly).result with
    | Except.error (st, u) => errorWeatherBundle (errMsg st u)
    | Except.ok fd =>
      let S := summarizePeriods (fd.periods.getD []) targetDate
      let obs : Option Rat × Option String × Option String :=
        match (safeFetch w.obs (obsUrl cfg)).result with
        | Except.error _ => (none, none, none)
        | Except.ok props =>
          ((match props.temperature with
            | some (some c) => some (roundTo1 (cToF c))
            | _ => none),
           jsOrNullStr props.textDescription,
           jsOrNullStr props.timestamp)
      { predicted_high_f := S.highF, predicted_low_f := S.lowF,
        high_hour := S.highHour, low_hour := S.lowHour,
        current_temp_f := obs.1, current_desc := obs.2.1,
        observed_at := obs.2.2, hourly := S.hourly, error := none }

/-! ## Market fetcher (`fetchMarkets`) -/

/-- One side level of an order book (price, quantity). -/
abbrev BookLevel := Int × Int

/-- An order book; `error` is set on the placeholder produced when a single
order-book fetch fails. -/
structure OrderBook where
  yes : List BookLevel
  no : List BookLevel
  error : Option String
deriving DecidableEq

/-- One tradable contract as extracted from a nested market.  `Option`
fields model nullable upstream JSON values. -/
structure Contract where
  ticker : String
  title : String
  yes_sub_title : String
  no_sub_title : String
  close_time : Option String
  yes_bid : Option Int
  yes_ask : Option Int
  no_bid : Option Int
  no_ask : Option Int
  last_price : Option Int
  volume : Option Int
  open_interest : Option Int
  orderbook : Option OrderBook
deriving DecidableEq

/-- One market inside an event of the Kalshi events listing. -/
structure KMarket where
  ticker : String
  title : Option String
  yes_sub_title : Option String
  no_sub_title : Option String
  close_time : Option String
  yes_bid : Option Int
  yes_ask : Option Int
  no_bid : Option Int
  no_ask : Option Int
  last_price : Option Int
  volume : Option Int
  open_interest : Option Int
deriving DecidableEq

/-- One event of the events listing (`event.markets || []`). -/
structure KEvent where
  markets : Option (List KMarket)
deriving DecidableEq

/-- Body of the events endpoint (`data.events || []`). -/
structure EventsBody where
  events : Option (List KEvent)
deriving DecidableEq

/-- Body of an order-book endpoint.  `orderbook` models the `d.orderbook`
field (absent means falsy); `asBook` is the whole body coerced to a book,
the `|| d` fallback. -/
structure ObBody where
  orderbook : Option OrderBook
  asBook : OrderBook
deriving DecidableEq

/-- `d.orderbook || d`. -/
def obOf (b : ObBody) : OrderBook := b.orderbook.getD b.asBook

/-- The Kalshi upstream: the events listing and, per market ticker, the
order-book endpoint, each indexed by retry attempt. -/
structure KalshiWorld where
  events : Nat → Resp EventsBody
  ob : String → Nat → Resp ObBody

/-- Path of the events listing for a series. -/
def eventsPath (seriesTicker : String) : String :=
  "/events?status=open&series_ticker=" ++ seriesTicker ++ "&with_nested_markets=true&limit=50"

/-- Path of the order-book endpoint for a market. -/
def obPath (ticker : String) : String := "/markets/" ++ ticker ++ "/orderbook"

/-- The contract-extraction loop of `fetchMarkets`: every nested market
whose ticker contains the ticker-date token, with `orderbook` still null. -/
def buildContracts (data : EventsBody) (tickerDate : String) : List Contract :=
  ((data.events.getD []).map (fun ev =>
    (ev.markets.getD []).filterMap (fun m =>
      if strIncludes m.ticker tickerDate then
        some { ticker := m.ticker, title := m.title.getD "",
               yes_sub_title := m.yes_sub_title.getD "",
               no_sub_title := m.no_sub_title.getD "",
               close_time := m.close_time,
               yes_bid := m.yes_bid, yes_ask := m.yes_ask,
               no_bid := m.no_bid, no_ask := m.no_ask,
               last_price := m.last_price, volume := m.volume,
               open_interest := m.open_interest, orderbook := none }
      else none))).flatten

/-- One order-book fetch of the enrichment phase, tagged with its ticker:
`kalshiFetch(...).then(d => ({ticker, ob: d.orderbook || d})).catch(e =>
({ticker, ob: {yes: [], no: [], error: e.message}}))`. -/
def fetchOrderbook (w : KalshiWorld) (c : Contract) : String × OrderBook :=
  match (kalshiFetch (w.ob c.ticker) (obPath c.ticker)).result with
  | Except.ok d => (c.ticker, obOf d)
  | Except.error (st, u) => (c.ticker, { yes := [], no := [], error := some (errMsg st u) })

/-- `contracts.find(x => x.ticker === t).orderbook = ob`: assign the book to
the first contract carrying the ticker. -/
def setFirst : List Contract → String → OrderBook → List Contract
  | [], _, _ => []
  | c :: rest, t, ob =>
    if c.ticker = t then { c with orderbook := some ob } :: rest
    else c :: setFirst rest t ob

/-- Apply a batch of settled order-book results in order. -/
def applyResults (acc : List Contract) (rs : List (String × OrderBook)) : List Contract :=
  rs.foldl (fun a r => setFirst a r.1 r.2) acc

/-- `contracts.slice(i, i + 5)` chunking with structural fuel; called with
`fuel = xs.length`, which the 5-step stride can never exhaust. -/
def chunksGo : Nat → List Contract → List (List Contract)
  | 0, _ => []
  | fuel + 1, xs => if xs.isEmpty then [] else xs.take 5 :: chunksGo fuel (xs.drop 5)

/-- The batches of the enrichment loop `for (let i = 0; i < contracts.length; i += 5)`. -/
def chunks5 (xs : List Contract) : List (List Contract) := chunksGo xs.length xs

/-- The order-book enrichment phase: per batch of 5, fetch every book
(each fetch individually caught) and assign each settled result to the
first contract with its ticker.  The enriched list replaces the in-place
mutation of the JS array; tickers never change, so chunking the initial
list is faithful. -/
def enrich (w : KalshiWorld) (contracts : List Contract) : List Contract :=
  (chunks5 contracts).foldl
    (fun acc batch => applyResults acc (batch.map (fetchOrderbook w))) contracts

/-- Result of `fetchMarkets`: contract list plus nullable series error. -/
structure MarketSeriesResult where
  contracts : List Contract
  error : Option String
deriving DecidableEq

/-- `fetchMarkets(env, seriesTicker, targetDate)`. -/
def fetchMarkets (w : KalshiWorld) (seriesTicker targetDate : String) : MarketSeriesResult :=
  match (kalshiFetch w.events (eventsPath seriesTicker)).result with
  | Except.error (st, u) => { contracts := [], error := some (errMsg st u) }
  | Except.ok data =>
    { contracts := enrich w (buildContracts data (toTickerDate targetDate)),
      error := none }

/-! ## Ensemble fetcher (`fetchEnsemble`) -/

/-- A value of the `daily` object: an array of optional member values, or
a non-array value (skipped by the `Array.isArray` guard). -/
inductive DailyVal where
  | arr (vals : List (Option Rat))
  | nonArr
deriving DecidableEq

/-- Body of the ensemble endpoint: the `daily` object as an ordered list of
key/value pairs (`Object.keys` order); `none` models an absent `daily`. -/
structure DailyBody where
  daily : Option (List (String × DailyVal))
deriving DecidableEq

/-- The ensemble part of a weather bundle. -/
structure EnsembleForecast where
  high_members : List Rat
  low_members : List Rat
  member_count : Nat
  error : Option String
deriving DecidableEq

/-- The member-collection loop of `fetchEnsemble`: skip `time` and
non-array / empty / null-first fields, then classify by key prefix. -/
def collectMembers (daily : List (String × DailyVal)) : List Rat × List Rat :=
  daily.foldl
    (fun acc kv =>
      if kv.1 = "time" then acc
      else
        match kv.2 with
        | DailyVal.nonArr => acc
        | DailyVal.arr vals =>
          match vals.head? with
          | none => acc
          | some none => acc
          | some (some v) =>
            if strStartsWith kv.1 "temperature_2m_max" then (acc.1 ++ [v], acc.2)
            else if strStartsWith kv.1 "temperature_2m_min" then (acc.1, acc.2 ++ [v])
            else acc)
    ([], [])

/-- URL of the open-meteo ensemble endpoint for a city and date. -/
def ensembleUrl (cfg : CityConfig) (targetDate : String) : String :=
  "https://ensemble-api.open-meteo.com/v1/ensemble?latitude=" ++ cfg.lat ++
    "&longitude=" ++ cfg.lon ++
    "&daily=temperature_2m_max,temperature_2m_min&temperature_unit=fahrenheit&start_date=" ++
    targetDate ++ "&end_date=" ++ targetDate ++
    "&models=ecmwf_ifs025,gfs_seamless,icon_seamless"

/-- `fetchEnsemble(config, targetDate)`.  Note: the source issues ONE plain
`fetch` with no retry loop — only attempt `0` of the oracle is ever
consulted, and a non-ok status throws `HTTP {status}` (no URL) into the
surrounding catch. -/
def fetchEnsemble (resp : Nat → Resp DailyBody) (cfg : CityConfig)
    (targetDate : String) : EnsembleForecast :=
  let r := resp 0
  if respOk r.status then
    let hm := (collectMembers (r.body.daily.getD [])).1
    let lm := (collectMembers (r.body.daily.getD [])).2
    { high_members := hm, low_members := lm,
      member_count := max hm.length lm.length, error := none }
  else
    { high_members := [], low_members := [], member_count := 0,
      error := some ("HTTP " ++ Nat.repr r.status) }

/-- Modelled from the spec: what §4.3 of the specification asserts for the
ensemble call — the same ensemble fetch, but routed through the bounded
retrying fetcher like every other upstream call ("this is the only retry
policy in the system; all upstream calls route through it").  Used only to
compare against `fetchEnsemble`, which the source implements with a single
unretried `fetch`. -/
def ensembleViaRetry (resp : Nat → Resp DailyBody) (cfg : CityConfig)
    (targetDate : String) : EnsembleForecast :=
  match (safeFetch resp (ensembleUrl cfg targetDate)).result with
  | Except.ok body =>
    let hm := (collectMembers (body.daily.getD [])).1
    let lm := (collectMembers (body.daily.getD [])).2
    { high_members := hm, low_members := lm,
      member_count := max hm.length lm.length, error := none }
  | Except.error (st, _) =>
    { high_members := [], low_members := [], member_count := 0,
      error := some ("HTTP " ++ Nat.repr st) }

/-! ## City bundle orchestration (`fetchCityBundle`) -/

/-- The weather object of a city bundle: `{...weather, ensemble}`.
`ensemble` is an `Option` because the router's placeholder bundle carries
no ensemble field at all. -/
structure CityWeather extends WeatherBundle where
  ensemble : Option EnsembleForecast
deriving DecidableEq

/-- A market series in the response:
`{series_ticker: ..., ...fetchMarkets result}` (the router's placeholder
has neither `series_ticker` nor `error`). -/
structure MarketSide where
  series_ticker : Option String
  contracts : List Contract
  error : Option (Option String)
deriving DecidableEq

/-- One city's bundle in the response. -/
structure CityBundle where
  city_name : String
  station : String
  weather : CityWeather
  markets_high : MarketSide
  markets_low : MarketSide
deriving DecidableEq

/-- The full upstream world one city-bundle orchestration runs against. -/
structure CityWorld where
  nws : NwsWorld
  kalshiHigh : KalshiWorld
  kalshiLow : KalshiWorld
  ensembleResp : Nat → Resp DailyBody

/-- `fetchCityBundle(env, code, config, targetDate)`: the four sub-fetches
(which interleave concurrently but share no state) merged into one bundle;
none of them can throw, so the orchestrator always returns. -/
def fetchCityBundle (w : CityWorld) (cfg : CityConfig) (targetDate : String) : CityBundle :=
  let weather := fetchWeather w.nws cfg targetDate
  let high := fetchMarkets w.kalshiHigh cfg.high targetDate
  let low := fetchMarkets w.kalshiLow cfg.low targetDate
  let ensemble := fetchEnsemble w.ensembleResp cfg targetDate
  { city_name := cfg.name, station := cfg.station,
    weather := { toWeatherBundle := weather, ensemble := some ensemble },
    markets_high := { series_ticker := some cfg.high, contracts := high.contracts,
                      error := some high.error },
    markets_low := { series_ticker := some cfg.low, contracts := low.contracts,
                     error := some low.error } }

/-! ## Request router (the `/bundle` branch of the default fetch handler) -/

/-- `CITY_CONFIGS`, in declaration (and `Object.keys`) order. -/
def cityConfigs : List (String × CityConfig) :=
  [("CHI", { name := "Chicago Midway", station := "KMDW", lat := "41.78412",
             lon := "-87.75514", high := "KXHIGHCHI", low := "KXLOWTCHI",
             tz := "America/Chicago" }),
   ("NYC", { name := "New York (Central Park)", station := "KNYC", lat := "40.77898",
             lon := "-73.96925", high := "KXHIGHNYC", low := "KXLOWTNYC",
             tz := "America/New_York" }),
   ("MIA", { name := "Miami", station := "KMIA", lat := "25.78805",
             lon := "-80.31694", high := "KXHIGHMIA", low := "KXLOWTMIA",
             tz := "America/New_York" }),
   ("LAX", { name := "Los Angeles", station := "KLAX", lat := "33.93816",
             lon := "-118.38660", high := "KXHIGHLAX", low := "KXLOWTLAX",
             tz := "America/Los_Angeles" }),
   ("AUS", { name := "Austin", station := "KAUS", lat := "30.18311",
             lon := "-97.67989", high := "KXHIGHAUS", low := "KXLOWTAUS",
             tz := "America/Chicago" }),
   ("DEN", { name := "Denver", station := "KDEN", lat := "39.84657",
             lon := "-104.65623", high := "KXHIGHDEN", low := "KXLOWTDEN",
             tz := "America/Denver" }),
   ("PHIL", { name := "Philadelphia", station := "KPHL", lat := "39.87326",
              lon := "-75.22681", high := "KXHIGHPHI", low := "KXLOWTPHI",
              tz := "America/New_York" })]

/-- `Object.keys(CITY_CONFIGS)`. -/
def cityCodes : List String := cityConfigs.map Prod.fst

/-- `CITY_CONFIGS[code]`. -/
def configOf (code : String) : Option CityConfig := cityConfigs.lookup code

/-- The regex test `^\d{4}-\d{2}-\d{2}$`. -/
def matchesDateRe (s : String) : Bool :=
  match s.data with
  | [y1, y2, y3, y4, h1, m1, m2, h2, d1, d2] =>
    y1.isDigit && y2.isDigit && y3.isDigit && y4.isDigit &&
      h1 = '-' && m1.isDigit && m2.isDigit && h2 = '-' && d1.isDigit && d2.isDigit
  | _ => false

/-- `citiesParam.split(",").map(c => c.trim().toUpperCase()).filter(c => c in CITY_CONFIGS)`. -/
def parseCities (s : String) : List String :=
  ((strSplitOn s ',').map (fun c => jsToUpper (jsTrim c))).filter
    (fun c => cityCodes.contains c)

/-- `results[i].reason?.message || "Unknown error"`: an empty message is
falsy and replaced. -/
def orUnknown (msg : String) : String := if msg = "" then "Unknown error" else msg

/-- The minimal placeholder bundle the router substitutes for a location
whose orchestration threw: name preserved, bare `{error}` weather object,
empty market lists (the unreachable lookup default only pads totality —
every routed code is a key of `CITY_CONFIGS`). -/
def placeholderBundle (code msg : String) : CityBundle :=
  { city_name := ((configOf code).map CityConfig.name).getD "",
    station := "",
    weather :=
      { predicted_high_f := none, predicted_low_f := none,
        high_hour := none, low_hour := none,
        current_temp_f := none, current_desc := none,
        observed_at := none, hourly := [], error := some msg,
        ensemble := none },
    markets_high := { series_ticker := none, contracts := [], error := none },
    markets_low := { series_ticker := none, contracts := [], error := none } }

/-- A per-location entry of the top-level `errors` array. -/
structure CityError where
  city : String
  error : String
deriving DecidableEq

/-- The `/bundle` response body (`generated_at`, a wall-clock timestamp, is
not modelled). -/
structure Envelope where
  target_date : String
  cities : List (String × CityBundle)
  errors : List CityError
deriving DecidableEq

/-- An HTTP response of the handler: status plus the envelope when the
request was valid. -/
structure BundleResponse where
  status : Nat
  body : Option Envelope
deriving DecidableEq

/-- The request parameters of `/bundle` (absent params are `none`). -/
structure BundleRequest where
  date : Option String
  cities : Option String
deriving DecidableEq

/-- The aggregation loop over the resolved codes: a fulfilled orchestration
is stored as-is; a rejected one is recorded in `errors` and replaced by the
placeholder.  `orch code date` is the outcome of `fetchCityBundle` for that
location — `Except.error msg` models a thrown exception. -/
def mkEnvelope (orch : String → String → Except String CityBundle)
    (d : String) (codes : List String) : Envelope :=
  { target_date := d,
    cities := codes.map (fun c =>
      (c, match orch c d with
          | Except.ok b => b
          | Except.error m => placeholderBundle c (orUnknown m))),
    errors := codes.filterMap (fun c =>
      match orch c d with
      | Except.ok _ => none
      | Except.error m => some { city := c, error := orUnknown m }) }

/-- The `/bundle` branch of the worker's fetch handler: date validation,
city-code resolution (a present-but-empty `cities` param is falsy and
behaves like an absent one), then sequential per-city orchestration with
per-location fault isolation. -/
def handleBundle (orch : String → String → Except String CityBundle)
    (req : BundleRequest) : BundleResponse :=
  match req.date with
  | none => { status := 400, body := none }
  | some d =>
    if matchesDateRe d then
      match req.cities with
      | some s =>
        if s = "" then { status := 200, body := some (mkEnvelope orch d cityCodes) }
        else
          let codes := parseCities s
          if codes = [] then { status := 400, body := none }
          else { status := 200, body := some (mkEnvelope orch d codes) }
      | none => { status := 200, body := some (mkEnvelope orch d cityCodes) }
    else { status := 400, body := none }

/-- The spec's weather-bundle degradation invariant: a non-null `error`
forces every numeric field to null and `hourly` to empty. -/
def weatherInv (b : WeatherBundle) : Prop :=
  b.error ≠ none →
    b.predicted_high_f = none ∧ b.predicted_low_f = none ∧
      b.current_temp_f = none ∧ b.hourly = []

/-! ## Concrete sample data for witnesses and counterexamples -/

/-- A city configuration used to instantiate theorems on concrete inputs. -/
def cfgSample : CityConfig :=
  { name := "Sample City", station := "KSMP", lat := "1.5", lon := "-2.5",
    high := "KXHIGHSMP", low := "KXLOWTSMP", tz := "America/Chicago" }

/-- A fully populated city bundle, standing for a successful orchestration. -/
def sampleBundle : CityBundle :=
  { city_name := "Sample City", station := "KSMP",
    weather :=
      { predicted_high_f := some 70, predicted_low_f := some 50,
        high_hour := some "2026-02-15T14:00:00-06:00",
        low_hour := some "2026-02-15T04:00:00-06:00",
        current_temp_f := none, current_desc := none, observed_at := none,
        hourly := [], error := none, ensemble := none },
    markets_high := { series_ticker := some "KXHIGHSMP", contracts := [], error := some none },
    markets_low := { series_ticker := some "KXLOWTSMP", contracts := [], error := some none } }

/-- An orchestration in which Chicago's fetch throws and every other city
succeeds. -/
def c1orch : String → String → Except String CityBundle :=
  fun c _ => if c = "CHI" then Except.error "boom" else Except.ok sampleBundle

/-- Hourly periods of a sample forecast: two on the target date, one on the
next day. -/
def samplePeriods : List Period :=
  [⟨"2026-02-15T01:00:00-06:00", 50, "5 mph", "Clear"⟩,
   ⟨"2026-02-15T14:00:00-06:00", 70, "10 mph", "Sunny"⟩,
   ⟨"2026-02-16T01:00:00-06:00", 20, "5 mph", "Clear"⟩]

/-- An NWS world whose points and hourly endpoints succeed while the
latest-observation endpoint answers 404 on every attempt. -/
def obsFailWorld : NwsWorld :=
  { points := fun _ => ⟨200, ⟨"https://api.weather.gov/gridpoints/LOT/1,2/forecast/hourly"⟩⟩,
    hourly := fun _ => ⟨200, ⟨some samplePeriods⟩⟩,
    obs := fun _ => ⟨404, ⟨none, none, none⟩⟩ }

/-- An order book with no error, as delivered by a successful fetch. -/
def sampleBook : OrderBook := { yes := [(40, 100)], no := [(55, 20)], error := none }

/-- An ensemble endpoint that rate-limits the first attempt and would
succeed on the second. -/
def cexEnsResp : Nat → Resp DailyBody :=
  fun n =>
    if n = 0 then ⟨429, ⟨none⟩⟩
    else ⟨200, ⟨some [("temperature_2m_max_gfs_seamless_ensemble", DailyVal.arr [some 70])]⟩⟩

/-- An NWS world in which every endpoint rate-limits its first attempt and
succeeds on the second. -/
def retryNws : NwsWorld :=
  { points := fun n =>
      if n = 0 then ⟨429, ⟨"429"⟩⟩
      else ⟨200, ⟨"https://api.weather.gov/gridpoints/LOT/1,2/forecast/hourly"⟩⟩,
    hourly := fun n => if n = 0 then ⟨429, ⟨none⟩⟩ else ⟨200, ⟨some samplePeriods⟩⟩,
    obs := fun n => if n = 0 then ⟨429, ⟨none, none, none⟩⟩ else ⟨200, ⟨none, none, none⟩⟩ }

/-- A Kalshi world in which every endpoint rate-limits its first attempt
and succeeds on the second. -/
def retryKalshi : KalshiWorld :=
  { events := fun n => if n = 0 then ⟨429, ⟨none⟩⟩ else ⟨200, ⟨some []⟩⟩,
    ob := fun _ n =>
      if n = 0 then ⟨429, ⟨none, sampleBook⟩⟩ else ⟨200, ⟨some sampleBook, sampleBook⟩⟩ }

/-- An ensemble endpoint that rate-limits every attempt. -/
def retryEns : Nat → Resp DailyBody := fun _ => ⟨429, ⟨none⟩⟩

/-- Periods exhibiting the falsy-empty-string corner of the extreme-hour
loop: with target date `""`, both are kept and both attain the maximum. -/
def c4cexPeriods : List Period := [⟨"", 5, "", ""⟩, ⟨"X", 5, "", ""⟩]

/-- A contract with ticker `"T"` awaiting order-book enrichment. -/
def c5cexContract : Contract :=
  { ticker := "T", title := "", yes_sub_title := "", no_sub_title := "",
    close_time := none, yes_bid := none, yes_ask := none, no_bid := none,
    no_ask := none, last_price := none, volume := none, open_interest := none,
    orderbook := none }

/-- A Kalshi world whose order-book endpoint always succeeds. -/
def c5cexWorld : KalshiWorld :=
  { events := fun _ => ⟨200, ⟨some []⟩⟩,
    ob := fun _ _ => ⟨200, ⟨some sampleBook, sampleBook⟩⟩ }

/-- A contract with ticker `"A"` (its order-book fetch succeeds below). -/
def contractA : Contract := { c5cexContract with ticker := "A" }

/-- A contract with ticker `"B"` (its order-book fetch fails below). -/
def contractB : Contract := { c5cexContract with ticker := "B" }

/-- A Kalshi world in which ticker `"B"`'s order-book endpoint answers 500
while every other order-book fetch succeeds. -/
def c5World : KalshiWorld :=
  { events := fun _ => ⟨200, ⟨some []⟩⟩,
    ob := fun t _ => if t = "B" then ⟨500, ⟨none, sampleBook⟩⟩
      else ⟨200, ⟨some sampleBook, sampleBook⟩⟩ }

/-- The placeholder order book contract `"B"` receives in `c5World`. -/
def bookFailB : OrderBook :=
  { yes := [], no := [], error := some (errMsg 500 (kalshiBase ++ obPath "B")) }

/-! ## Helper lemmas -/

lemma respOk_429 : respOk 429 = false := by decide

lemma safeFetchGo_attempts_le (resp : Nat → Resp β) (url : String) :
    ∀ (rem att d : Nat), (safeFetchGo resp url rem att d).attempts ≤ att + rem := by
  intro rem
  induction rem with
  | zero => intro att d; simp [safeFetchGo]
  | succ rem ih =>
    intro att d
    simp only [safeFetchGo]
    by_cases h1 : respOk (resp att).status = true
    · rw [if_pos h1]
      show att + 1 ≤ att + (rem + 1)
      omega
    · rw [if_neg (by simp [h1])]
      by_cases h2 : (resp att).status = 429 ∧ att < 2
      · rw [if_pos h2]
        have := ih (att + 1) (d + 1500 * (att + 1))
        omega
      · rw [if_neg h2]
        show att + 1 ≤ att + (rem + 1)
        omega

lemma foldl_max_mem : ∀ (ts : List Int) (t : Int), ts.foldl max t ∈ t :: ts := by
  intro ts
  induction ts with
  | nil => intro t; simp
  | cons a ts ih =>
    intro t
    rw [List.foldl_cons]
    rcases List.mem_cons.mp (ih (max t a)) with h1 | h1
    · rw [h1]
      rcases max_choice t a with h2 | h2 <;> rw [h2]
      · exact List.mem_cons_self _ _
      · exact List.mem_cons_of_mem _ (List.mem_cons_self _ _)
    · exact List.mem_cons_of_mem _ (List.mem_cons_of_mem _ h1)

lemma le_foldl_max : ∀ (ts : List Int) (t x : Int), x ∈ t :: ts → x ≤ ts.foldl max t := by
  intro ts
  induction ts with
  | nil =>
    intro t x hx
    rw [List.mem_singleton] at hx
    simp [hx]
  | cons a ts ih =>
    intro t x hx
    rw [List.foldl_cons]
    have hbase : max t a ≤ ts.foldl max (max t a) := ih _ _ (List.mem_cons_self _ _)
    rcases List.mem_cons.mp hx with h1 | h1
    · subst h1; exact le_trans (le_max_left _ _) hbase
    · rcases List.mem_cons.mp h1 with h2 | h2
      · subst h2; exact le_trans (le_max_right _ _) hbase
      · exact ih _ _ (List.mem_cons_of_mem _ h2)

lemma foldl_min_mem : ∀ (ts : List Int) (t : Int), ts.foldl min t ∈ t :: ts := by
  intro ts
  induction ts with
  | nil => intro t; simp
  | cons a ts ih =>
    intro t
    rw [List.foldl_cons]
    rcases List.mem_cons.mp (ih (min t a)) with h1 | h1
    · rw [h1]
      rcases min_choice t a with h2 | h2 <;> rw [h2]
      · exact List.mem_cons_self _ _
      · exact List.mem_cons_of_mem _ (List.mem_cons_self _ _)
    · exact List.mem_cons_of_mem _ (List.mem_cons_of_mem _ h1)

lemma foldl_min_le : ∀ (ts : List Int) (t x : Int), x ∈ t :: ts → ts.foldl min t ≤ x := by
  intro ts
  induction ts with
  | nil =>
    intro t x hx
    rw [List.mem_singleton] at hx
    simp [hx]
  | cons a ts ih =>
    intro t x hx
    rw [List.foldl_cons]
    have hbase : ts.foldl min (min t a) ≤ min t a := ih _ _ (List.mem_cons_self _ _)
    rcases List.mem_cons.mp hx with h1 | h1
    · subst h1; exact le_trans hbase (min_le_left _ _)
    · rcases List.mem_cons.mp h1 with h2 | h2
      · subst h2; exact le_trans hbase (min_le_right _ _)
      · exact ih _ _ (List.mem_cons_of_mem _ h2)

lemma hourStep_fst_fixed (hF lF : Option Int) (s : String) (hs : s ≠ "") :
    ∀ (tp : List Period) (b : Option String),
      (tp.foldl (hourStep hF lF) (some s, b)).1 = some s := by
  intro tp
  induction tp with
  | nil => intro b; rfl
  | cons p tp ih =>
    intro b
    rw [List.foldl_cons]
    have hstep : hourStep hF lF (some s, b) p
        = (some s, (hourStep hF lF (some s, b) p).2) := by
      simp [hourStep, hs]
    rw [hstep]
    exact ih _

lemma hourStep_snd_fixed (hF lF : Option Int) (s : String) (hs : s ≠ "") :
    ∀ (tp : List Period) (b : Option String),
      (tp.foldl (hourStep hF lF) (b, some s)).2 = some s := by
  intro tp
  induction tp with
  | nil => intro b; rfl
  | cons p tp ih =>
    intro b
    rw [List.foldl_cons]
    have hstep : hourStep hF lF (b, some s) p
        = ((hourStep hF lF (b, some s) p).1, some s) := by
      simp [hourStep, hs]
    rw [hstep]
    exact ih _

lemma hourStep_fst_find (hF lF : Option Int) :
    ∀ (tp : List Period) (b : Option String),
      (∀ p ∈ tp, p.startTime ≠ "") →
      (tp.foldl (hourStep hF lF) (none, b)).1
        = (tp.find? (fun p => decide (some p.temperature = hF))).map Period.startTime := by
  intro tp
  induction tp with
  | nil => intro b _; rfl
  | cons p tp ih =>
    intro b hne
    rw [List.foldl_cons]
    by_cases hp : some p.temperature = hF
    · have hstep : hourStep hF lF (none, b) p
          = (some p.startTime, (hourStep hF lF (none, b) p).2) := by
        simp [hourStep, hp]
      rw [hstep, hourStep_fst_fixed hF lF _ (hne p (List.mem_cons_self _ _)) tp _]
      rw [List.find?_cons_of_pos _ (by simp [hp])]
      rfl
    · have hstep : hourStep hF lF (none, b) p
          = (none, (hourStep hF lF (none, b) p).2) := by
        simp [hourStep, hp]
      rw [hstep, ih _ (fun q hq => hne q (List.mem_cons_of_mem _ hq))]
      rw [List.find?_cons_of_neg _ (by simp [hp])]

lemma hourStep_snd_find (hF lF : Option Int) :
    ∀ (tp : List Period) (b : Option String),
      (∀ p ∈ tp, p.startTime ≠ "") →
      (tp.foldl (hourStep hF lF) (b, none)).2
        = (tp.find? (fun p => decide (some p.temperature = lF))).map Period.startTime := by
  intro tp
  induction tp with
  | nil => intro b _; rfl
  | cons p tp ih =>
    intro b hne
    rw [List.foldl_cons]
    by_cases hp : some p.temperature = lF
    · have hstep : hourStep hF lF (b, none) p
          = ((hourStep hF lF (b, none) p).1, some p.startTime) := by
        simp [hourStep, hp]
      rw [hstep, hourStep_snd_fixed hF lF _ (hne p (List.mem_cons_self _ _)) tp _]
      rw [List.find?_cons_of_pos _ (by simp [hp])]
      rfl
    · have hstep : hourStep hF lF (b, none) p
          = ((hourStep hF lF (b, none) p).1, none) := by
        simp [hourStep, hp]
      rw [hstep, ih _ (fun q hq => hne q (List.mem_cons_of_mem _ hq))]
      rw [List.find?_cons_of_neg _ (by simp [hp])]

lemma startsWith_ne_empty {s pre : String} (h : strStartsWith s pre = true)
    (hpre : pre ≠ "") : s ≠ "" := by
  intro hs
  subst hs
  cases hd : pre.data with
  | nil =>
    apply hpre
    cases pre with
    | mk l => cases hd; rfl
  | cons c l =>
    rw [strStartsWith, hd] at h
    simp [List.isPrefixOf] at h

lemma chunksGo_flatten :
    ∀ (fuel : Nat) (xs : List Contract), xs.length ≤ fuel → (chunksGo fuel xs).flatten = xs := by
  intro fuel
  induction fuel with
  | zero =>
    intro xs hx
    have : xs = [] := List.eq_nil_of_length_eq_zero (Nat.le_zero.mp hx)
    subst this; rfl
  | succ fuel ih =>
    intro xs hx
    by_cases hxs : xs.isEmpty
    · rw [List.isEmpty_iff] at hxs
      subst hxs; rfl
    · rw [chunksGo, if_neg (by simp [hxs])]
      rw [List.flatten_cons]
      rw [ih (xs.drop 5) (by
        rw [List.length_drop]
        rw [List.isEmpty_iff] at hxs
        have : 0 < xs.length := List.length_pos.mpr hxs
        omega)]
      exact List.take_append_drop 5 xs

lemma chunks5_flatten (xs : List Contract) : (chunks5 xs).flatten = xs :=
  chunksGo_flatten xs.length xs le_rfl

lemma chunksGo_mem_length :
    ∀ (fuel : Nat) (xs : List Contract) (b : List Contract),
      b ∈ chunksGo fuel xs → b.length ≤ 5 := by
  intro fuel
  induction fuel with
  | zero => intro xs b hb; simp [chunksGo] at hb
  | succ fuel ih =>
    intro xs b hb
    rw [chunksGo] at hb
    by_cases hxs : xs.isEmpty
    · rw [if_pos hxs] at hb; simp at hb
    · rw [if_neg hxs] at hb
      rcases List.mem_cons.mp hb with h1 | h1
      · subst h1
        calc (xs.take 5).length = min 5 xs.length := List.length_take 5 xs
          _ ≤ 5 := Nat.min_le_left _ _
      · exact ih _ _ h1

lemma chunks5_mem_length (xs b : List Contract) (hb : b ∈ chunks5 xs) : b.length ≤ 5 :=
  chunksGo_mem_length xs.length xs b hb

lemma applyResults_append (acc : List Contract) (rs1 rs2 : List (String × OrderBook)) :
    applyResults acc (rs1 ++ rs2) = applyResults (applyResults acc rs1) rs2 := by
  simp [applyResults, List.foldl_append]

lemma foldl_chunks (g : Contract → String × OrderBook) :
    ∀ (chs : List (List Contract)) (acc : List Contract),
      chs.foldl (fun a b => applyResults a (b.map g)) acc
        = applyResults acc (chs.flatten.map g) := by
  intro chs
  induction chs with
  | nil => intro acc; rfl
  | cons b chs ih =>
    intro acc
    rw [List.foldl_cons, ih, List.flatten_cons, List.map_append, applyResults_append]

lemma enrich_eq (w : KalshiWorld) (cs : List Contract) :
    enrich w cs = applyResults cs (cs.map (fetchOrderbook w)) := by
  rw [enrich, foldl_chunks, chunks5_flatten]

lemma fetchOrderbook_fst (w : KalshiWorld) (c : Contract) :
    (fetchOrderbook w c).1 = c.ticker := by
  rw [fetchOrderbook]
  rcases h : (kalshiFetch (w.ob c.ticker) (obPath c.ticker)).result with e | d
  · rcases e with ⟨st, u⟩; rfl
  · rfl

lemma setFirst_skip (cs : List Contract) (t : String) (ob : OrderBook) (c : Contract)
    (h : c.ticker ≠ t) : setFirst (c :: cs) t ob = c :: setFirst cs t ob := by
  simp [setFirst, h]

lemma applyResults_cons_skip :
    ∀ (rs : List (String × OrderBook)) (c : Contract) (cs : List Contract),
      (∀ r ∈ rs, r.1 ≠ c.ticker) →
      applyResults (c :: cs) rs = c :: applyResults cs rs := by
  intro rs
  induction rs with
  | nil => intro c cs _; rfl
  | cons r rs ih =>
    intro c cs h
    have hr : c.ticker ≠ r.1 := fun he => h r (List.mem_cons_self _ _) he.symm
    show applyResults (setFirst (c :: cs) r.1 r.2) rs = c :: applyResults (setFirst cs r.1 r.2) rs
    rw [setFirst_skip _ _ _ _ hr]
    exact ih c _ (fun q hq => h q (List.mem_cons_of_mem _ hq))

lemma applyResults_map_self (w : KalshiWorld) :
    ∀ (cs : List Contract), (cs.map Contract.ticker).Nodup →
      applyResults cs (cs.map (fetchOrderbook w))
        = cs.map (fun c => { c with orderbook := some (fetchOrderbook w c).2 }) := by
  intro cs
  induction cs with
  | nil => intro _; rfl
  | cons c cs ih =>
    intro hnd
    rw [List.map_cons] at hnd
    have hhead : c.ticker ∉ cs.map Contract.ticker := (List.nodup_cons.mp hnd).1
    have htail : (cs.map Contract.ticker).Nodup := (List.nodup_cons.mp hnd).2
    show applyResults (setFirst (c :: cs) (fetchOrderbook w c).1 (fetchOrderbook w c).2)
        (cs.map (fetchOrderbook w)) = _
    rw [fetchOrderbook_fst]
    have hset : setFirst (c :: cs) c.ticker (fetchOrderbook w c).2
        = { c with orderbook := some (fetchOrderbook w c).2 } :: cs := by
      simp [setFirst]
    rw [hset]
    rw [applyResults_cons_skip (cs.map (fetchOrderbook w)) _ cs (by
      intro r hr
      rcases List.mem_map.mp hr with ⟨c2, hc2, hrc⟩
      subst hrc
      rw [fetchOrderbook_fst]
      show c2.ticker ≠ _
      intro he
      exact hhead (by
        rw [List.mem_map]
        exact ⟨c2, hc2, by simpa using he⟩))]
    rw [ih htail, List.map_cons]

lemma enrich_nodup (w : KalshiWorld) (cs : List Contract)
    (hnd : (cs.map Contract.ticker).Nodup) :
    enrich w cs = cs.map (fun c => { c with orderbook := some (fetchOrderbook w c).2 }) := by
  rw [enrich_eq, applyResults_map_self w cs hnd]

lemma listMax_spec (l : List Int) (m : Int) (h : listMax l = some m) :
    (∀ x ∈ l, x ≤ m) ∧ m ∈ l := by
  cases l with
  | nil => simp [listMax] at h
  | cons t ts =>
    rw [listMax] at h
    have hm : ts.foldl max t = m := Option.some.inj h
    exact ⟨fun x hx => hm ▸ le_foldl_max ts t x hx, hm ▸ foldl_max_mem ts t⟩

lemma listMin_spec (l : List Int) (m : Int) (h : listMin l = some m) :
    (∀ x ∈ l, m ≤ x) ∧ m ∈ l := by
  cases l with
  | nil => simp [listMin] at h
  | cons t ts =>
    rw [listMin] at h
    have hm : ts.foldl min t = m := Option.some.inj h
    exact ⟨fun x hx => hm ▸ foldl_min_le ts t x hx, hm ▸ foldl_min_mem ts t⟩

lemma safeFetch_429_then_ok (resp : Nat → Resp β) (url : String)
    (h1 : (resp 0).status = 429) (h2 : respOk (resp 1).status = true) :
    safeFetch resp url = ⟨Except.ok (resp 1).body, 2, 1500⟩ := by
  simp [safeFetch, safeFetchGo, h1, h2, respOk_429]

lemma kalshiFetch_eq_safeFetch (resp : Nat → Resp β) (path : String) :
    kalshiFetch resp path = safeFetch resp (kalshiBase ++ path) := rfl

lemma lookup_map_self {α : Type} (f : String → α) :
    ∀ (codes : List String) (c : String), c ∈ codes →
      (codes.map (fun x => (x, f x))).lookup c = some (f c) := by
  intro codes
  induction codes with
  | nil => intro c hc; simp at hc
  | cons a codes ih =>
    intro c hc
    by_cases hca : c = a
    · subst hca; simp [List.lookup]
    · rw [List.map_cons]
      have hbeq : (c == a) = false := beq_false_of_ne hca
      simp only [List.lookup, hbeq]
      rcases List.mem_cons.mp hc with h1 | h1
      · exact absurd h1 hca
      · exact ih c h1

lemma fetchWeather_inv (w : NwsWorld) (cfg : CityConfig) (td : String) :
    weatherInv (fetchWeather w cfg td) := by
  unfold fetchWeather
  split
  · exact fun _ => ⟨rfl, rfl, rfl, rfl⟩
  · split
    · exact fun _ => ⟨rfl, rfl, rfl, rfl⟩
    · exact fun h => absurd rfl h

lemma mkEnvelope_cities_cases (orch : String → String → Except String CityBundle)
    (d : String) (codes : List String) (c : String) (b : CityBundle)
    (h : (c, b) ∈ (mkEnvelope orch d codes).cities) :
    (∃ m, b = placeholderBundle c (orUnknown m)) ∨ orch c d = Except.ok b := by
  rw [mkEnvelope] at h
  simp only [List.mem_map] at h
  rcases h with ⟨c2, hc2, heq⟩
  have hc : c2 = c := congrArg Prod.fst heq
  subst hc
  have hb := congrArg Prod.snd heq
  simp only at hb
  rcases horch : orch c2 d with m | b2
  · left
    rw [horch] at hb
    simp only at hb
    exact ⟨m, hb.symm⟩
  · right
    rw [horch] at hb
    simp only at hb
    rw [hb]

lemma handleBundle_body_cases (orch : String → String → Except String CityBundle)
    (req : BundleRequest) (env : Envelope)
    (h : (handleBundle orch req).body = some env) :
    ∃ d codes, env = mkEnvelope orch d codes := by
  unfold handleBundle at h
  rcases req with ⟨date, cities⟩
  rcases date with _ | d
  · simp at h
  · simp only at h
    by_cases hd : matchesDateRe d
    · rw [if_pos hd] at h
      rcases cities with _ | s
      · simp only at h
        exact ⟨d, cityCodes, (Option.some.inj h).symm⟩
      · simp only at h
        by_cases hs : s = ""
        · rw [if_pos hs] at h
          exact ⟨d, cityCodes, (Option.some.inj h).symm⟩
        · rw [if_neg hs] at h
          by_cases hc : parseCities s = []
          · rw [if_pos hc] at h
            simp at h
          · rw [if_neg hc] at h
            exact ⟨d, parseCities s, (Option.some.inj h).symm⟩
    · rw [if_neg hd] at h
      simp at h

/-! ## Claims -/

/-- Claim C1: for every `/bundle` request with a valid date and at least one
resolved city code, a location whose orchestration throws is caught by the
router, recorded as `{city, message}` in the top-level `errors` list and
replaced by a placeholder bundle (city name preserved, empty market lists),
the response is still HTTP 200, and every other location's bundle in the
response is exactly what its orchestration returned — so total failure of
`/bundle` occurs only for malformed input. -/
theorem bundle_fault_isolation (orch : String → String → Except String CityBundle)
    (d s : String) (hd : matchesDateRe d = true) (hs : s ≠ "")
    (hcodes : parseCities s ≠ []) :
    (handleBundle orch { date := some d, cities := some s }).status = 200 ∧
    (handleBundle orch { date := some d, cities := some s }).body
      = some (mkEnvelope orch d (parseCities s)) ∧
    (∀ c ∈ parseCities s, ∀ b, orch c d = Except.ok b →
      (mkEnvelope orch d (parseCities s)).cities.lookup c = some b) ∧
    (∀ c ∈ parseCities s, ∀ m, orch c d = Except.error m →
      (mkEnvelope orch d (parseCities s)).cities.lookup c
          = some (placeholderBundle c (orUnknown m)) ∧
        { city := c, error := orUnknown m } ∈ (mkEnvelope orch d (parseCities s)).errors) ∧
    (∀ c m, (placeholderBundle c m).city_name = ((configOf c).map CityConfig.name).getD "" ∧
      (placeholderBundle c m).markets_high.contracts = [] ∧
      (placeholderBundle c m).markets_low.contracts = [] ∧
      (placeholderBundle c m).weather.error = some m) := by
  refine ⟨?_, ?_, ?_, ?_, fun c m => ⟨rfl, rfl, rfl, rfl⟩⟩
  · simp [handleBundle, hd, hs, hcodes]
  · simp [handleBundle, hd, hs, hcodes]
  · intro c hc b hb
    have := lookup_map_self
      (fun c => match orch c d with
        | Except.ok b => b
        | Except.error m => placeholderBundle c (orUnknown m)) (parseCities s) c hc
    rw [mkEnvelope]
    simp only at this ⊢
    rw [this, hb]
  · intro c hc m hm
    constructor
    · have := lookup_map_self
        (fun c => match orch c d with
          | Except.ok b => b
          | Except.error m => placeholderBundle c (orUnknown m)) (parseCities s) c hc
      rw [mkEnvelope]
      simp only at this ⊢
      rw [this, hm]
    · rw [mkEnvelope]
      simp only [List.mem_filterMap]
      exact ⟨c, hc, by rw [hm]⟩

/-- Claim C1 witness: the request `/bundle?date=2026-02-15&cities=CHI,NYC`
against an orchestration in which Chicago throws `"boom"` and New York
succeeds with `sampleBundle`. -/
theorem bundle_fault_isolation_witness :
    (handleBundle c1orch { date := some "2026-02-15", cities := some "CHI,NYC" }).status = 200 ∧
    (mkEnvelope c1orch "2026-02-15" (parseCities "CHI,NYC")).cities.lookup "NYC"
      = some sampleBundle ∧
    (mkEnvelope c1orch "2026-02-15" (parseCities "CHI,NYC")).cities.lookup "CHI"
      = some (placeholderBundle "CHI" (orUnknown "boom")) ∧
    { city := "CHI", error := orUnknown "boom" }
      ∈ (mkEnvelope c1orch "2026-02-15" (parseCities "CHI,NYC")).errors ∧
    (placeholderBundle "CHI" (orUnknown "boom")).city_name = "Chicago Midway" := by
  have h := bundle_fault_isolation c1orch "2026-02-15" "CHI,NYC"
    (by decide) (by decide) (by decide)
  refine ⟨h.1, ?_, ?_, ?_, by decide⟩
  · exact h.2.2.1 "NYC" (by decide) sampleBundle (by decide)
  · exact (h.2.2.2.1 "CHI" (by decide) "boom" (by decide)).1
  · exact (h.2.2.2.1 "CHI" (by decide) "boom" (by decide)).2

/-- Claim C2: the retrying fetcher performs at most 3 attempts; a
successful status yields that response's body; a non-success status other
than 429 throws immediately with the status and URL; a 429 delays
`1500 ms × attemptNumber` before retrying, for at most 2 retries, and a 429
on the final attempt throws the same error; in particular a 429 on attempt
1 followed by success on attempt 2 succeeds after exactly 1500 ms, which is
strictly less than the 3000 ms a third attempt would add.  The
authenticated variant follows the identical policy. -/
theorem safeFetch_retry_policy {β : Type} (resp : Nat → Resp β) (url path : String) :
    (safeFetch resp url).attempts ≤ 3 ∧
    kalshiFetch resp path = safeFetch resp (kalshiBase ++ path) ∧
    (respOk (resp 0).status = true →
      safeFetch resp url = ⟨Except.ok (resp 0).body, 1, 0⟩) ∧
    (respOk (resp 0).status = false → (resp 0).status ≠ 429 →
      safeFetch resp url = ⟨Except.error ((resp 0).status, url), 1, 0⟩) ∧
    ((resp 0).status = 429 → respOk (resp 1).status = true →
      safeFetch resp url = ⟨Except.ok (resp 1).body, 2, 1500⟩ ∧ (1500 : Nat) < 1500 * 2) ∧
    ((resp 0).status = 429 → respOk (resp 1).status = false → (resp 1).status ≠ 429 →
      safeFetch resp url = ⟨Except.error ((resp 1).status, url), 2, 1500⟩) ∧
    ((resp 0).status = 429 → (resp 1).status = 429 → respOk (resp 2).status = true →
      safeFetch resp url = ⟨Except.ok (resp 2).body, 3, 4500⟩) ∧
    ((resp 0).status = 429 → (resp 1).status = 429 → respOk (resp 2).status = false →
      safeFetch resp url = ⟨Except.error ((resp 2).status, url), 3, 4500⟩) := by
  refine ⟨?_, rfl, ?_, ?_, ?_, ?_, ?_, ?_⟩
  · exact safeFetchGo_attempts_le resp url 3 0 0
  · intro h
    simp [safeFetch, safeFetchGo, h]
  · intro h1 h2
    simp [safeFetch, safeFetchGo, h1, h2]
  · intro h1 h2
    exact ⟨by simp [safeFetch, safeFetchGo, h1, h2, respOk_429], by norm_num⟩
  · intro h1 h2 h3
    simp [safeFetch, safeFetchGo, h1, h2, h3, respOk_429]
  · intro h1 h2 h3
    simp [safeFetch, safeFetchGo, h1, h2, h3, respOk_429]
  · intro h1 h2 h3
    simp [safeFetch, safeFetchGo, h1, h2, h3, respOk_429]

/-- Claim C2 witness: a 429 on attempt 1 followed by 200 on attempt 2
yields the second body after 2 attempts and a 1500 ms delay. -/
theorem safeFetch_retry_policy_witness :
    safeFetch (fun n => if n = 0 then (⟨429, 0⟩ : Resp Nat) else ⟨200, 7⟩) "u"
      = ⟨Except.ok 7, 2, 1500⟩ ∧
    (safeFetch (fun _ => (⟨500, 0⟩ : Resp Nat)) "u").attempts ≤ 3 := by
  have h := safeFetch_retry_policy (fun n => if n = 0 then (⟨429, 0⟩ : Resp Nat) else ⟨200, 7⟩)
    "u" "/p"
  have h2 := safeFetch_retry_policy (fun _ => (⟨500, 0⟩ : Resp Nat)) "u" "/p"
  exact ⟨(h.2.2.2.2.1 (by decide) (by decide)).1, h2.1⟩

/-- Claim C3 counterexample: the ensemble fetch is NOT routed through the
bounded-retry fetcher.  On a world whose ensemble endpoint rate-limits the
first attempt and succeeds on the second, `fetchEnsemble` returns an
error-carrying result after its single unretried fetch, while the same
oracle routed through `safeFetch` (the spec-modelled `ensembleViaRetry`)
succeeds. -/
theorem ensemble_not_retried_cex :
    (fetchEnsemble cexEnsResp cfgSample "2026-02-15").error = some "HTTP 429" ∧
    (ensembleViaRetry cexEnsResp cfgSample "2026-02-15").error = none ∧
    (ensembleViaRetry cexEnsResp cfgSample "2026-02-15").high_members = [70] ∧
    fetchEnsemble cexEnsResp cfgSample "2026-02-15"
      ≠ ensembleViaRetry cexEnsResp cfgSample "2026-02-15" := by
  decide

/-- Claim C3 (amended): every weather and market upstream call of a
`/bundle` request (points, hourly forecast, latest observation, events
listing, each order book) is routed through the bounded-retry fetcher —
if each of those endpoints rate-limits its first attempt and succeeds on
its second, every fetcher still succeeds — but the ensemble forecast is
fetched once without retry, so the same rate-limit pattern leaves the
ensemble result carrying an error. -/
theorem retry_routing_amended
    (nws : NwsWorld) (kw : KalshiWorld) (ens : Nat → Resp DailyBody)
    (cfg : CityConfig) (series td : String)
    (hp0 : (nws.points 0).status = 429) (hp1 : respOk (nws.points 1).status = true)
    (hh0 : (nws.hourly 0).status = 429) (hh1 : respOk (nws.hourly 1).status = true)
    (ho0 : (nws.obs 0).status = 429) (ho1 : respOk (nws.obs 1).status = true)
    (he0 : (kw.events 0).status = 429) (he1 : respOk (kw.events 1).status = true)
    (hob : ∀ t, (kw.ob t 0).status = 429 ∧ respOk (kw.ob t 1).status = true)
    (hen0 : (ens 0).status = 429) :
    (fetchWeather nws cfg td).error = none ∧
    (safeFetch nws.obs (obsUrl cfg)).result = Except.ok ((nws.obs 1).body) ∧
    (fetchMarkets kw series td).error = none ∧
    (∀ c : Contract, fetchOrderbook kw c = (c.ticker, obOf ((kw.ob c.ticker 1).body))) ∧
    (fetchEnsemble ens cfg td).error = some "HTTP 429" := by
  refine ⟨?_, ?_, ?_, ?_, ?_⟩
  · unfold fetchWeather
    rw [safeFetch_429_then_ok _ _ hp0 hp1]
    simp only
    rw [safeFetch_429_then_ok _ _ hh0 hh1]
  · rw [safeFetch_429_then_ok _ _ ho0 ho1]
  · unfold fetchMarkets
    rw [kalshiFetch_eq_safeFetch, safeFetch_429_then_ok _ _ he0 he1]
  · intro c
    unfold fetchOrderbook
    rw [kalshiFetch_eq_safeFetch,
      safeFetch_429_then_ok _ _ (hob c.ticker).1 (hob c.ticker).2]
  · unfold fetchEnsemble
    dsimp only
    rw [hen0]
    simp only [respOk_429]
    rfl

/-- Claim C3 witness: concrete worlds whose every endpoint rate-limits the
first attempt — the weather and market fetchers succeed, the ensemble
fetcher fails. -/
theorem retry_routing_amended_witness :
    (fetchWeather retryNws cfgSample "2026-02-15").error = none ∧
    (safeFetch retryNws.obs (obsUrl cfgSample)).result
      = Except.ok ((retryNws.obs 1).body) ∧
    (fetchMarkets retryKalshi "KXHIGHSMP" "2026-02-15").error = none ∧
    (fetchEnsemble retryEns cfgSample "2026-02-15").error = some "HTTP 429" := by
  have h := retry_routing_amended retryNws retryKalshi retryEns cfgSample
    "KXHIGHSMP" "2026-02-15" (by decide) (by decide) (by decide) (by decide)
    (by decide) (by decide) (by decide) (by decide)
    (fun _ => ⟨rfl, rfl⟩) (by decide)
  exact ⟨h.1, h.2.1, h.2.2.1, h.2.2.2.2⟩

/-- Claim C4 counterexample: with target date `""` (allowed by the claim's
quantification over every target date string) and two kept periods that
both attain the maximum, the first attaining period has start time `""`,
which JavaScript's `!highHour` treats as unset, so the recorded extreme
hour is the SECOND attaining period's start time `"X"`, not the first's. -/
theorem first_extreme_hour_cex :
    ((c4cexPeriods.filter (fun p => strStartsWith p.startTime "")).find?
        (fun p => decide (some p.temperature = (summarizePeriods c4cexPeriods "").highF))).map
          Period.startTime = some "" ∧
    (summarizePeriods c4cexPeriods "").highF = some 5 ∧
    (summarizePeriods c4cexPeriods "").highHour = some "X" ∧
    (summarizePeriods c4cexPeriods "").lowHour = some "X" ∧
    some "X" ≠ (some "" : Option String) := by
  decide

/-- Claim C4 (amended): for every list of hourly forecast periods and every
NON-EMPTY target date string, the weather fetcher keeps exactly the periods
whose start time begins with the target date (no timezone conversion), sets
the predicted high and low to the maximum and minimum of the kept periods'
temperatures (null when the kept set is empty), and records the start time
of the first kept period attaining each extreme.  (With an empty target
date a kept period may have an empty, falsy start time and a later extreme
period overwrites it — the counterexample above.) -/
theorem summarize_periods_spec (periods : List Period) (td : String) (htd : td ≠ "") :
    (summarizePeriods periods td).hourly
      = (periods.filter (fun p => strStartsWith p.startTime td)).map
          (fun p => { time := p.startTime, temp_f := p.temperature,
                      wind := p.windSpeed, desc := p.shortForecast }) ∧
    (periods.filter (fun p => strStartsWith p.startTime td) = [] →
      (summarizePeriods periods td).highF = none ∧
      (summarizePeriods periods td).lowF = none ∧
      (summarizePeriods periods td).highHour = none ∧
      (summarizePeriods periods td).lowHour = none) ∧
    (∀ m, (summarizePeriods periods td).highF = some m →
      (∀ p ∈ periods.filter (fun p => strStartsWith p.startTime td), p.temperature ≤ m) ∧
      ∃ p ∈ periods.filter (fun p => strStartsWith p.startTime td), p.temperature = m) ∧
    (∀ m, (summarizePeriods periods td).lowF = some m →
      (∀ p ∈ periods.filter (fun p => strStartsWith p.startTime td), m ≤ p.temperature) ∧
      ∃ p ∈ periods.filter (fun p => strStartsWith p.startTime td), p.temperature = m) ∧
    (periods.filter (fun p => strStartsWith p.startTime td) ≠ [] →
      (∃ m, (summarizePeriods periods td).highF = some m) ∧
      ∃ m, (summarizePeriods periods td).lowF = some m) ∧
    (summarizePeriods periods td).highHour
      = ((periods.filter (fun p => strStartsWith p.startTime td)).find?
          (fun p => decide (some p.temperature = (summarizePeriods periods td).highF))).map
            Period.startTime ∧
    (summarizePeriods periods td).lowHour
      = ((periods.filter (fun p => strStartsWith p.startTime td)).find?
          (fun p => decide (some p.temperature = (summarizePeriods periods td).lowF))).map
            Period.startTime := by
  set tp := periods.filter (fun p => strStartsWith p.startTime td) with htp
  have hne : ∀ p ∈ tp, p.startTime ≠ "" := by
    intro p hp
    have := List.of_mem_filter hp
    exact startsWith_ne_empty this htd
  have hHigh : (summarizePeriods periods td).highF = listMax (tp.map Period.temperature) := rfl
  have hLow : (summarizePeriods periods td).lowF = listMin (tp.map Period.temperature) := rfl
  have hHH : (summarizePeriods periods td).highHour
      = (tp.foldl (hourStep (listMax (tp.map Period.temperature))
          (listMin (tp.map Period.temperature))) (none, none)).1 := rfl
  have hLH : (summarizePeriods periods td).lowHour
      = (tp.foldl (hourStep (listMax (tp.map Period.temperature))
          (listMin (tp.map Period.temperature))) (none, none)).2 := rfl
  refine ⟨rfl, ?_, ?_, ?_, ?_, ?_, ?_⟩
  · intro h
    rw [hHigh, hLow, hHH, hLH, h]
    exact ⟨rfl, rfl, rfl, rfl⟩
  · intro m hm
    rw [hHigh] at hm
    rcases listMax_spec _ _ hm with ⟨hb, hmem⟩
    constructor
    · intro p hp
      exact hb _ (List.mem_map_of_mem Period.temperature hp)
    · rcases List.mem_map.mp hmem with ⟨p, hp, hpt⟩
      exact ⟨p, hp, hpt⟩
  · intro m hm
    rw [hLow] at hm
    rcases listMin_spec _ _ hm with ⟨hb, hmem⟩
    constructor
    · intro p hp
      exact hb _ (List.mem_map_of_mem Period.temperature hp)
    · rcases List.mem_map.mp hmem with ⟨p, hp, hpt⟩
      exact ⟨p, hp, hpt⟩
  · intro h
    rcases List.exists_mem_of_ne_nil tp h with ⟨p, hp⟩
    have hmem : p.temperature ∈ tp.map Period.temperature := List.mem_map_of_mem _ hp
    rcases hcase : tp.map Period.temperature with _ | ⟨t, ts⟩
    · rw [hcase] at hmem; simp at hmem
    · exact ⟨⟨ts.foldl max t, by rw [hHigh, hcase]; rfl⟩,
        ⟨ts.foldl min t, by rw [hLow, hcase]; rfl⟩⟩
  · rw [hHH, hourStep_fst_find _ _ tp _ hne, hHigh]
  · rw [hLH, hourStep_snd_find _ _ tp _ hne, hLow]

/-- Claim C4 witness: the sample periods on target date `2026-02-15`: high
70 at the 14:00 period, low 50 at the 01:00 period, next-day period
dropped. -/
theorem summarize_periods_spec_witness :
    (summarizePeriods samplePeriods "2026-02-15").highHour
      = ((samplePeriods.filter (fun p => strStartsWith p.startTime "2026-02-15")).find?
          (fun p => decide (some p.temperature
            = (summarizePeriods samplePeriods "2026-02-15").highF))).map Period.startTime ∧
    (summarizePeriods samplePeriods "2026-02-15").highF = some 70 ∧
    (summarizePeriods samplePeriods "2026-02-15").lowF = some 50 ∧
    (summarizePeriods samplePeriods "2026-02-15").highHour
      = some "2026-02-15T14:00:00-06:00" := by
  have h := summarize_periods_spec samplePeriods "2026-02-15" (by decide)
  exact ⟨h.2.2.2.2.2.1, by decide, by decide, by decide⟩

/-- Claim C5 counterexample: with two contracts sharing the ticker `"T"`,
each settled order-book result is assigned by a first-match search on the
ticker, so both assignments hit the FIRST contract and the second
contract's `orderbook` is still null after enrichment completes, violating
the claimed invariant. -/
theorem duplicate_ticker_orderbook_cex :
    (enrich c5cexWorld [c5cexContract, c5cexContract]).map Contract.orderbook
      = [some sampleBook, none] ∧
    (enrich c5cexWorld [c5cexContract, c5cexContract]).length = 2 := by
  decide

/-- Claim C5 (amended): order-book enrichment processes contracts in fixed
batches of at most 5 that exactly cover the contract list; PROVIDED the
contract tickers are pairwise distinct, every contract ends up with its own
individually fault-isolated result — the fetched book when its fetch
succeeds, the `{yes: [], no: [], error}` placeholder when it fails — so no
contract's `orderbook` is null after enrichment and the series error stays
null whenever the events listing succeeded; `orderbook` is null on every
freshly extracted contract (before enrichment).  (With duplicate tickers
every result is assigned to the first contract bearing the ticker and a
later duplicate keeps a null order book — the counterexample above.) -/
theorem orderbook_batching (w : KalshiWorld) (series td : String) (data : EventsBody)
    (cs : List Contract) (hnd : (cs.map Contract.ticker).Nodup) :
    enrich w cs = cs.map (fun c => { c with orderbook := some (fetchOrderbook w c).2 }) ∧
    (∀ c ∈ enrich w cs, c.orderbook ≠ none) ∧
    (∀ b ∈ chunks5 cs, b.length ≤ 5) ∧
    (chunks5 cs).flatten = cs ∧
    (∀ c ∈ buildContracts data (toTickerDate td), c.orderbook = none) ∧
    (∀ ev, (kalshiFetch w.events (eventsPath series)).result = Except.ok ev →
      (fetchMarkets w series td).error = none) ∧
    (∀ (c : Contract) (d' : ObBody),
      (kalshiFetch (w.ob c.ticker) (obPath c.ticker)).result = Except.ok d' →
      fetchOrderbook w c = (c.ticker, obOf d')) ∧
    (∀ (c : Contract) (st : Nat) (u : String),
      (kalshiFetch (w.ob c.ticker) (obPath c.ticker)).result = Except.error (st, u) →
      fetchOrderbook w c = (c.ticker, { yes := [], no := [], error := some (errMsg st u) })) := by
  refine ⟨enrich_nodup w cs hnd, ?_, fun b hb => chunks5_mem_length cs b hb,
    chunks5_flatten cs, ?_, ?_, ?_, ?_⟩
  · intro c hc
    rw [enrich_nodup w cs hnd] at hc
    rcases List.mem_map.mp hc with ⟨c2, _, hc2⟩
    rw [← hc2]
    simp
  · intro c hc
    rw [buildContracts] at hc
    rcases List.mem_flatten.mp hc with ⟨l, hl, hcl⟩
    rcases List.mem_map.mp hl with ⟨ev, _, hevl⟩
    subst hevl
    rcases List.mem_filterMap.mp hcl with ⟨m, _, hmc⟩
    split at hmc
    · cases Option.some.inj hmc
      rfl
    · exact absurd hmc (by simp)
  · intro ev hev
    unfold fetchMarkets
    rw [hev]
  · intro c d' hc
    unfold fetchOrderbook
    rw [hc]
  · intro c st u hc
    unfold fetchOrderbook
    rw [hc]

/-- Claim C5 witness: two distinct-ticker contracts, `"A"` fetching
successfully and `"B"` failing with 500 — after enrichment `A` carries the
fetched book, `B` the error placeholder, and neither is null. -/
theorem orderbook_batching_witness :
    enrich c5World [contractA, contractB]
      = [{ contractA with orderbook := some sampleBook },
         { contractB with orderbook := some bookFailB }] ∧
    (chunks5 [contractA, contractB]).flatten = [contractA, contractB] := by
  have h := orderbook_batching c5World "KXHIGHSMP" "2026-02-15" ⟨some []⟩
    [contractA, contractB] (by decide)
  refine ⟨?_, h.2.2.2.1⟩
  rw [h.1]
  decide

/-- Claim C6: when the gridpoint and hourly-forecast retrievals succeed but
the latest-observation fetch fails, the weather bundle has
`current_temp_f`, `current_desc` and `observed_at` all null while the
predicted extremes, their hours and the hourly array are populated from the
forecast, and the bundle's `error` is null — an observation failure never
fails the overall weather fetch. -/
theorem observation_failure_isolated (w : NwsWorld) (cfg : CityConfig) (td : String)
    (pd : PointsBody) (fd : ForecastBody) (e : Nat × String)
    (hp : (safeFetch w.points (pointsUrl cfg)).result = Except.ok pd)
    (hh : (safeFetch w.hourly pd.forecastHourly).result = Except.ok fd)
    (ho : (safeFetch w.obs (obsUrl cfg)).result = Except.error e) :
    fetchWeather w cfg td =
      { predicted_high_f := (summarizePeriods (fd.periods.getD []) td).highF,
        predicted_low_f := (summarizePeriods (fd.periods.getD []) td).lowF,
        high_hour := (summarizePeriods (fd.periods.getD []) td).highHour,
        low_hour := (summarizePeriods (fd.periods.getD []) td).lowHour,
        current_temp_f := none, current_desc := none, observed_at := none,
        hourly := (summarizePeriods (fd.periods.getD []) td).hourly,
        error := none } := by
  unfold fetchWeather
  rw [hp]
  simp only
  rw [hh]
  simp only
  rw [ho]

/-- Claim C6 witness: a world whose observation endpoint answers 404 while
points and hourly succeed — the forecast fields are populated, the
observation fields and `error` are null. -/
theorem observation_failure_isolated_witness :
    fetchWeather obsFailWorld cfgSample "2026-02-15"
      = { predicted_high_f := some 70, predicted_low_f := some 50,
          high_hour := some "2026-02-15T14:00:00-06:00",
          low_hour := some "2026-02-15T01:00:00-06:00",
          current_temp_f := none, current_desc := none, observed_at := none,
          hourly := [⟨"2026-02-15T01:00:00-06:00", 50, "5 mph", "Clear"⟩,
                     ⟨"2026-02-15T14:00:00-06:00", 70, "10 mph", "Sunny"⟩],
          error := none } := by
  have h := observation_failure_isolated obsFailWorld cfgSample "2026-02-15"
    ⟨"https://api.weather.gov/gridpoints/LOT/1,2/forecast/hourly"⟩ ⟨some samplePeriods⟩
    (404, obsUrl cfgSample) rfl rfl rfl
  rw [h]
  decide

/-- Claim C7: every weather bundle appearing in a `/bundle` response —
produced by the weather fetcher, merged with the ensemble result by the
orchestrator, or substituted as a placeholder by the router — satisfies the
degradation invariant: a non-null `error` forces all numeric fields to null
and an empty `hourly`. -/
theorem weather_error_invariant :
    (∀ (w : NwsWorld) (cfg : CityConfig) (td : String), weatherInv (fetchWeather w cfg td)) ∧
    (∀ (w : CityWorld) (cfg : CityConfig) (td : String),
      weatherInv (fetchCityBundle w cfg td).weather.toWeatherBundle) ∧
    (∀ (orch : String → String → Except String CityBundle) (req : BundleRequest)
        (env : Envelope),
      (handleBundle orch req).body = some env →
      (∀ c d b, orch c d = Except.ok b → weatherInv b.weather.toWeatherBundle) →
      ∀ p ∈ env.cities, weatherInv p.2.weather.toWeatherBundle) := by
  refine ⟨fetchWeather_inv, ?_, ?_⟩
  · intro w cfg td
    exact fetchWeather_inv w.nws cfg td
  · intro orch req env hbody horch p hp
    rcases handleBundle_body_cases orch req env hbody with ⟨d, codes, henv⟩
    subst henv
    rcases p with ⟨c, b⟩
    rcases mkEnvelope_cities_cases orch d codes c b hp with ⟨m, hm⟩ | hok
    · subst hm
      exact fun _ => ⟨rfl, rfl, rfl, rfl⟩
    · exact horch c d b hok

/-- Claim C7 witness: in a response in which every orchestration throws,
Chicago's bundle is the placeholder and its weather satisfies the
invariant. -/
theorem weather_error_invariant_witness :
    weatherInv (placeholderBundle "CHI" (orUnknown "boom")).weather.toWeatherBundle ∧
    (placeholderBundle "CHI" (orUnknown "boom")).weather.error = some "boom" := by
  have h := weather_error_invariant
  refine ⟨?_, by decide⟩
  exact h.2.2 (fun _ _ => Except.error "boom")
    { date := some "2026-02-15", cities := none }
    (mkEnvelope (fun _ _ => Except.error "boom") "2026-02-15" cityCodes)
    rfl
    (by intro c d b hb; simp at hb)
    ("CHI", placeholderBundle "CHI" (orUnknown "boom"))
    (by decide)

/-- Claim C8: the ticker-date encoding is a total, deterministic function
of the date string: for every string parsing to a valid calendar date it
produces the two-digit year, the three-letter uppercase month abbreviation
and the zero-padded two-digit day of the midday-UTC-anchored date; in
particular `2026-02-15 ↦ 26FEB15` and `2026-12-01 ↦ 26DEC01`. -/
theorem toTickerDate_encoding :
    toTickerDate "2026-02-15" = "26FEB15" ∧
    toTickerDate "2026-12-01" = "26DEC01" ∧
    (∀ s y m d, parseYMD s = some (y, m, d) → jsDateValid y m d = true →
      toTickerDate s = lastTwoStr (Nat.repr y) ++ months.getD (m - 1) "undefined" ++ padTwo d) ∧
    (∀ a ∈ months, a.length = 3 ∧ a.data.all Char.isUpper) := by
  refine ⟨by decide, by decide, ?_, by decide⟩
  intro s y m d hp hv
  rw [toTickerDate, hp]
  simp only
  rw [if_pos hv]

/-- Claim C8 witness: the general form instantiated at `2026-02-15`. -/
theorem toTickerDate_encoding_witness :
    toTickerDate "2026-02-15"
      = lastTwoStr (Nat.repr 2026) ++ months.getD (2 - 1) "undefined" ++ padTwo 15 := by
  have h := toTickerDate_encoding
  exact h.2.2.1 "2026-02-15" 2026 2 15 (by decide) (by decide)

/-- Claim C9: city codes are parsed from the comma-separated `cities`
parameter case-insensitively with surrounding whitespace trimmed; unknown
codes are silently dropped, so `cities=CHI,ZZZ` behaves exactly like
`cities=CHI`; a present `cities` parameter surviving with no code yields
HTTP 400; an absent parameter uses all configured locations. -/
theorem cities_param_filtering (orch : String → String → Except String CityBundle)
    (d : String) (hd : matchesDateRe d = true) :
    parseCities "CHI,ZZZ" = parseCities "CHI" ∧
    handleBundle orch { date := some d, cities := some "CHI,ZZZ" }
      = handleBundle orch { date := some d, cities := some "CHI" } ∧
    (handleBundle orch { date := some d, cities := some "ZZZ" }).status = 400 ∧
    (handleBundle orch { date := some d, cities := some "ZZZ" }).body = none ∧
    handleBundle orch { date := some d, cities := none }
      = { status := 200, body := some (mkEnvelope orch d cityCodes) } ∧
    parseCities " chi , nyc " = ["CHI", "NYC"] := by
  have h1 : parseCities "CHI,ZZZ" = ["CHI"] := by decide
  have h2 : parseCities "CHI" = ["CHI"] := by decide
  have h3 : parseCities "ZZZ" = [] := by decide
  refine ⟨by rw [h1, h2], ?_, ?_, ?_, ?_, by decide⟩
  · simp [handleBundle, hd, h1, h2]
  · simp [handleBundle, hd, h3]
  · simp [handleBundle, hd, h3]
  · simp [handleBundle, hd]

/-- Claim C9 witness: the filtering facts at the concrete date
`2026-02-15` and an orchestration that always throws. -/
theorem cities_param_filtering_witness :
    parseCities "CHI,ZZZ" = parseCities "CHI" ∧
    (handleBundle (fun _ _ => Except.error "e")
      { date := some "2026-02-15", cities := some "ZZZ" }).status = 400 ∧
    parseCities " chi , nyc " = ["CHI", "NYC"] := by
  have h := cities_param_filtering (fun _ _ => Except.error "e") "2026-02-15" (by decide)
  exact ⟨h.1, h.2.2.1, h.2.2.2.2.2⟩

/-- Claim C10 (implicit): `/bundle` date validation is purely syntactic —
the non-date `"2026-99-99"` matches the regex, is accepted with HTTP 200
and handed to the per-city orchestration unchanged, and the ticker-date
encoder, fed the same string, returns (without throwing) the JavaScript
NaN-artifact `"aNundefinedNaN"`, which is not of the `YYMMMDD` form — no
component enforces calendar validity. -/
theorem date_validation_syntactic (orch : String → String → Except String CityBundle) :
    matchesDateRe "2026-99-99" = true ∧
    handleBundle orch { date := some "2026-99-99", cities := none }
      = { status := 200, body := some (mkEnvelope orch "2026-99-99" cityCodes) } ∧
    (mkEnvelope orch "2026-99-99" cityCodes).target_date = "2026-99-99" ∧
    toTickerDate "2026-99-99" = invalidDateTicker ∧
    isTickerDateForm (toTickerDate "2026-99-99") = false ∧
    jsDateValid 2026 99 99 = false := by
  refine ⟨by decide, ?_, rfl, by decide, by decide, by decide⟩
  simp [handleBundle, show matchesDateRe "2026-99-99" = true by decide]

end Worker
